import Mathlib

/-!
Shallow embedding of `examples/faster-rcnn/inference.py` (neon Faster-RCNN
inference example script).

The script is a straight-line Python program: it parses CLI arguments,
validates them with `assert` statements, builds a backend and a data loader,
builds the model and loads its parameters, optionally rescales the
bounding-box regression weights, runs a per-image inference loop that fills
two accumulator lists (`all_boxes`, `all_gt_boxes`), and finally calls
`voc_eval`.

Modelling choices:
* Python floats are modelled as rationals (`ℚ`); the claims concern which
  arithmetic operations are applied and which values flow where, not IEEE
  rounding.
* External library calls (`gen_backend`, `DataLoader`, `model.fprop`,
  `faster_rcnn.get_bboxes`, `util.scale_bbreg_weights`, `voc_eval`,
  `neon_logger.display`, `sys.stdout.write`) are modelled as observable
  events on a trace; values produced by external code are supplied by a
  `World` structure of oracles (the dataset contents, decoded boxes per
  image, the loaded model parameters).
* The script writes `all_gt_boxes = [[] for _ in xrange(num_images)]`
  (line 117) although only `builtins.range` is imported; under Python 3 the
  name `xrange` is unbound and raises `NameError`.  The interpreter version
  is a boolean parameter `py3` of the run function: when `py3 = true` the
  evaluation of that comprehension aborts with a `NameError`.
-/

namespace FrcnInference

/-- One row of a decoded detection: `(x1, y1, x2, y2, score)` as produced by
`faster_rcnn.get_bboxes`. -/
abbrev DetRow := List ℚ

/-- Detections of one class for one image (`N x 5` array). -/
abbrev ClsDets := List DetRow

/-- Per-image detection entry: one list per class (image-first indexing, as
built on lines 115-116 of the source). -/
abbrev ImgDets := List ClsDets

/-- Serialized model parameters, abstract (external to this script). -/
abbrev Model := List ℚ

/-- An entry of `all_gt_boxes`: initially the empty Python list, after the
loop a numpy array of rows (line 150-154). -/
inductive GtEntry
  | empty
  | arr (rows : List (List ℚ))
deriving DecidableEq

/-- A ground-truth box from the aeon metadata buffer (4 coordinates). -/
structure Box4 where
  x1 : ℚ
  y1 : ℚ
  x2 : ℚ
  y2 : ℚ
deriving DecidableEq

/-- Per-image metadata delivered by `valid_set.get_metadata_buffers()`
(line 132-133).  Buffers are modelled as total functions from row index;
the script reads only the first `num_gt_boxes` rows of each. -/
structure Metadata where
  im_shape : ℚ × ℚ
  im_scale : ℚ
  gt_boxes : Nat → Box4
  gt_classes : Nat → ℚ
  difficult : Nat → ℚ
  num_gt_boxes : Nat

/-- Oracles for everything the script obtains from the external libraries:
dataset size and class count, the parameters loaded from the model file,
the external weight-scaling function, the decoded boxes for each image, and
the metadata for each image. -/
structure World where
  num_classes : Nat
  num_images : Nat
  loadedModel : Model
  scale_bbreg_weights : Model → List ℚ → List ℚ → Nat → Model
  get_bboxes : Nat → ImgDets
  metadata : Nat → Metadata

/-- Parsed command-line arguments (`NeonArgparser` plus the four arguments
added on lines 55-60).  `manifest` is the key-to-path dictionary built by
the framework from repeated `--manifest` options. -/
structure Args where
  model_file : Option String
  manifest : List (String × String)
  batch_size : Nat
  normalize : Bool
  output_dir : Option String
  data_dir : String
  width : Nat
  height : Nat
deriving DecidableEq

/-- Observable events of a run, in program order. -/
inductive Event
  | parseArgs
  | buildBackend
  | buildDataLoader
  | buildModel
  | loadParams
  | scaleBbreg (means stds : List ℚ) (ncls : Nat)
  | stdoutWrite (s : String)
  | stdoutFlush
  | forward (i : Nat)
  | decode (i : Nat)
  | logDisplay (s : String)
  | vocEval (dets : List ImgDets) (gts : List GtEntry) (use07 : Bool)
  | fileWrite (path contents : String)
deriving DecidableEq

/-- How a run ends: normally, by a failed `assert`, or by an unbound name. -/
inductive Outcome
  | ok
  | assertionError (msg : String)
  | nameError (missing : String)
deriving DecidableEq

/-- The observable result of a run: the event trace, the outcome, the final
model parameter value (if the script got that far), and the final contents
of the two accumulators. -/
structure RunResult where
  trace : List Event
  outcome : Outcome
  model : Option Model
  all_boxes : List ImgDets
  all_gt_boxes : List GtEntry
deriving DecidableEq

/-- `os.path.join` for two components (POSIX semantics, as used on
line 64 of the source). -/
def pyJoin (a b : String) : String :=
  if b.startsWith "/" then b
  else if a = "" then b
  else if a.endsWith "/" then a ++ b
  else a ++ "/" ++ b

/-- Lines 63-64: `if args.output_dir is None: args.output_dir =
os.path.join(args.data_dir, 'frcn_output')`.  The resolved value is stored
back into `args` and (as claim C9 records) never read again, so it is
modelled as a standalone function of the parsed arguments. -/
def resolved_output_dir (a : Args) : String :=
  match a.output_dir with
  | none => pyJoin a.data_dir "frcn_output"
  | some d => d

/-- Line 67: the membership test `'val' in args.manifest` (dictionary key
membership). -/
def manifest_has_val (a : Args) : Bool :=
  a.manifest.any (fun kv => kv.1 == "val")

/-- Lines 66-70: the three module-level `assert` statements, in source
order, each with its message.  Returns the message of the first failing
assertion, or `none` when all pass. -/
def check_asserts (a : Args) : Option String :=
  if a.model_file = none then some "Model file required for Faster-RCNN testing"
  else if manifest_has_val a = false then some "Path to manifest file requred"
  else if a.batch_size ≠ 1 then some "Faster-RCNN only supports batch size 1"
  else none

/-- The configuration is valid: all three assertions pass. -/
def valid_args (a : Args) : Prop :=
  a.model_file ≠ none ∧ manifest_has_val a = true ∧ a.batch_size = 1

instance (a : Args) : Decidable (valid_args a) := by
  unfold valid_args; infer_instance

/-- Line 101: the bbox-regression means `[0.0, 0.0, 0.0, 0.0]`. -/
def bb_means : List ℚ := [0, 0, 0, 0]

/-- Line 102: the bbox-regression standard deviations `[0.1, 0.1, 0.2, 0.2]`. -/
def bb_stds : List ℚ := [1/10, 1/10, 1/5, 1/5]

/-- A string of `n` spaces (`' ' * n`). -/
def spaces (n : Nat) : String :=
  String.mk (List.replicate n ' ')

/-- Line 122: `"Finished: {} / {}".format(mb_idx, num_images)`. -/
def prt_str (i n : Nat) : String :=
  "Finished: " ++ toString i ++ " / " ++ toString n

/-- Lines 115-116: `all_boxes = [[[] for _ in range(num_classes)] for _ in
range(num_images)]` — image-first, then class, each innermost list empty. -/
def all_boxes_init (num_images num_classes : Nat) : List ImgDets :=
  List.replicate num_images (List.replicate num_classes ([] : ClsDets))

/-- Line 117: `all_gt_boxes = [[] for _ in xrange(num_images)]` (the value
it produces under Python 2, where `xrange` is defined). -/
def all_gt_boxes_init (num_images : Nat) : List GtEntry :=
  List.replicate num_images GtEntry.empty

/-- One row of the array assembled on lines 149-152: the four ground-truth
coordinates divided by `im_scale`, the class, the difficult flag, and the
`detected` column initialised to `False` (numeric 0 after `np.hstack`
promotes the boolean column). -/
def gt_row (md : Metadata) (j : Nat) : List ℚ :=
  [(md.gt_boxes j).x1 / md.im_scale, (md.gt_boxes j).y1 / md.im_scale,
   (md.gt_boxes j).x2 / md.im_scale, (md.gt_boxes j).y2 / md.im_scale,
   md.gt_classes j, md.difficult j, 0]

/-- Lines 149-152: `np.hstack([gt_boxes.get()[:num_gt_boxes] / im_scale,
gt_classes.get()[:num_gt_boxes], difficult.get()[:num_gt_boxes],
detected[:, np.newaxis]])` — the assembled `num_gt_boxes x 7` array. -/
def gt_boxes_assembled (md : Metadata) : List (List ℚ) :=
  (List.range md.num_gt_boxes).map (gt_row md)

/-- Mutable state of the inference loop (lines 119-154): the two
accumulators, the `last_strlen` progress-line length, and the events
emitted so far by the loop. -/
structure LoopState where
  all_boxes : List ImgDets
  all_gt_boxes : List GtEntry
  last_strlen : Nat
  trace : List Event
deriving DecidableEq

/-- One iteration of the loop body (lines 120-154) for image `mb_idx`:
write the erase string and the progress string to stdout, flush, run the
forward pass, decode the boxes into `all_boxes[mb_idx]`, and store the
assembled ground-truth array into `all_gt_boxes[mb_idx]`. -/
def loop_body (w : World) (num_images mb_idx : Nat) (st : LoopState) : LoopState :=
  let prt := prt_str mb_idx num_images
  { all_boxes := st.all_boxes.set mb_idx (w.get_bboxes mb_idx)
    all_gt_boxes := st.all_gt_boxes.set mb_idx
      (GtEntry.arr (gt_boxes_assembled (w.metadata mb_idx)))
    last_strlen := prt.length
    trace := st.trace ++
      [Event.stdoutWrite ("\r" ++ spaces st.last_strlen ++ "\r"),
       Event.stdoutWrite prt, Event.stdoutFlush,
       Event.forward mb_idx, Event.decode mb_idx] }

/-- The loop `for mb_idx, (x, y) in enumerate(valid_set)`: `k` iterations
remain, the next image index is `i`.  `valid_set` yields exactly
`valid_set.ndata` minibatches, so the loop is entered with
`k = num_images` and `i = 0`. -/
def inference_loop (w : World) (num_images : Nat) : Nat → Nat → LoopState → LoopState
  | 0, _, st => st
  | k + 1, i, st => inference_loop w num_images k (i + 1) (loop_body w num_images i st)

/-- Initial loop state after lines 115-119 (accumulators fresh,
`last_strlen = 0`, no loop events yet). -/
def init_state (w : World) : LoopState :=
  { all_boxes := all_boxes_init w.num_images w.num_classes
    all_gt_boxes := all_gt_boxes_init w.num_images
    last_strlen := 0
    trace := [] }

/-- The loop state after the whole inference loop has run. -/
def final_state (w : World) : LoopState :=
  inference_loop w w.num_images w.num_images 0 (init_state w)

/-- The part of the script after the assertions have passed (lines 74-158):
backend, data loader, model build, parameter load, optional bbox-weight
normalization, accumulator setup, the inference loop, and the final
`voc_eval` call.  When `py3 = true` the construction of `all_gt_boxes`
raises `NameError: xrange` (line 117) before the loop starts. -/
def run_main (w : World) (a : Args) (py3 : Bool) : RunResult :=
  let t1 := [Event.parseArgs, Event.buildBackend, Event.buildDataLoader,
             Event.buildModel, Event.loadParams]
  let m1 := if a.normalize then
              w.scale_bbreg_weights w.loadedModel bb_means bb_stds w.num_classes
            else w.loadedModel
  let t2 := if a.normalize then
              t1 ++ [Event.scaleBbreg bb_means bb_stds w.num_classes]
            else t1
  if py3 then
    { trace := t2
      outcome := Outcome.nameError "xrange"
      model := some m1
      all_boxes := all_boxes_init w.num_images w.num_classes
      all_gt_boxes := [] }
  else
    let st := final_state w
    { trace := t2 ++ st.trace ++
        [Event.logDisplay "Evaluating detections",
         Event.vocEval st.all_boxes st.all_gt_boxes true]
      outcome := Outcome.ok
      model := some m1
      all_boxes := st.all_boxes
      all_gt_boxes := st.all_gt_boxes }

/-- The whole script: parse the arguments, run the three assertions
(lines 66-70), and on success continue with `run_main`.  A failed
assertion aborts immediately: nothing after it executes, so the trace
holds only the argument-parsing event. -/
def run_script (w : World) (a : Args) (py3 : Bool) : RunResult :=
  match check_asserts a with
  | some msg =>
    { trace := [Event.parseArgs]
      outcome := Outcome.assertionError msg
      model := none
      all_boxes := []
      all_gt_boxes := [] }
  | none => run_main w a py3

/-- The kind of an event, forgetting payloads (used to state ordering
properties of the pipeline). -/
inductive EKind
  | parseK | backendK | loaderK | buildK | loadK | scaleK | outK | flushK
  | fwdK (i : Nat) | decK (i : Nat) | logK | vevalK | fwriteK
deriving DecidableEq

/-- Forget an event's payload. -/
def Event.kind : Event → EKind
  | Event.parseArgs => EKind.parseK
  | Event.buildBackend => EKind.backendK
  | Event.buildDataLoader => EKind.loaderK
  | Event.buildModel => EKind.buildK
  | Event.loadParams => EKind.loadK
  | Event.scaleBbreg _ _ _ => EKind.scaleK
  | Event.stdoutWrite _ => EKind.outK
  | Event.stdoutFlush => EKind.flushK
  | Event.forward i => EKind.fwdK i
  | Event.decode i => EKind.decK i
  | Event.logDisplay _ => EKind.logK
  | Event.vocEval _ _ _ => EKind.vevalK
  | Event.fileWrite _ _ => EKind.fwriteK

/-- The event kinds named by the pipeline-order claim: argument parsing,
backend construction, data-loader construction, model building, parameter
loading, per-image forward pass and box decoding, and the evaluator call. -/
def pipeline_kind : EKind → Bool
  | EKind.parseK | EKind.backendK | EKind.loaderK | EKind.buildK | EKind.loadK => true
  | EKind.fwdK _ | EKind.decK _ | EKind.vevalK => true
  | _ => false

/-- Expected pipeline kinds of the loop: forward pass then box decoding for
each image index in order, starting at `i`, for `k` images. -/
def fwd_dec_seq : Nat → Nat → List EKind
  | 0, _ => []
  | k + 1, i => EKind.fwdK i :: EKind.decK i :: fwd_dec_seq k (i + 1)

/-- Expected event trace of the loop: `k` iterations remaining, next image
index `i`, current progress-line length `L`. -/
def loop_trace_seg (n : Nat) : Nat → Nat → Nat → List Event
  | 0, _, _ => []
  | k + 1, i, L =>
    [Event.stdoutWrite ("\r" ++ spaces L ++ "\r"), Event.stdoutWrite (prt_str i n),
     Event.stdoutFlush, Event.forward i, Event.decode i] ++
    loop_trace_seg n k (i + 1) (prt_str i n).length

theorem inference_loop_trace (w : World) (n : Nat) :
    ∀ (k i : Nat) (st : LoopState),
      (inference_loop w n k i st).trace =
        st.trace ++ loop_trace_seg n k i st.last_strlen := by
  intro k
  induction k with
  | zero => intro i st; simp [inference_loop, loop_trace_seg]
  | succ k ih =>
    intro i st
    rw [inference_loop, ih]
    simp [loop_body, loop_trace_seg]

theorem inference_loop_length (w : World) (n : Nat) :
    ∀ (k i : Nat) (st : LoopState),
      (inference_loop w n k i st).all_boxes.length = st.all_boxes.length ∧
      (inference_loop w n k i st).all_gt_boxes.length = st.all_gt_boxes.length := by
  intro k
  induction k with
  | zero => intro i st; simp [inference_loop]
  | succ k ih =>
    intro i st
    rw [inference_loop]
    rcases ih (i + 1) (loop_body w n i st) with ⟨hb, hg⟩
    rw [hb, hg]
    simp [loop_body]

theorem inference_loop_frame (w : World) (n : Nat) :
    ∀ (k i : Nat) (st : LoopState) (j : Nat), j < i ∨ i + k ≤ j →
      (inference_loop w n k i st).all_boxes[j]? = st.all_boxes[j]? ∧
      (inference_loop w n k i st).all_gt_boxes[j]? = st.all_gt_boxes[j]? := by
  intro k
  induction k with
  | zero => intro i st j h; simp [inference_loop]
  | succ k ih =>
    intro i st j h
    have hij : i ≠ j := by omega
    rw [inference_loop]
    rcases ih (i + 1) (loop_body w n i st) j (by omega) with ⟨hb, hg⟩
    rw [hb, hg]
    constructor
    · simp [loop_body, List.getElem?_set_ne hij]
    · simp [loop_body, List.getElem?_set_ne hij]

theorem inference_loop_value (w : World) (n : Nat) :
    ∀ (k i : Nat) (st : LoopState) (j : Nat),
      i ≤ j → j < i + k → j < st.all_boxes.length → j < st.all_gt_boxes.length →
      (inference_loop w n k i st).all_boxes[j]? = some (w.get_bboxes j) ∧
      (inference_loop w n k i st).all_gt_boxes[j]? =
        some (GtEntry.arr (gt_boxes_assembled (w.metadata j))) := by
  intro k
  induction k with
  | zero => intro i st j h1 h2; omega
  | succ k ih =>
    intro i st j h1 h2 hlb hlg
    rw [inference_loop]
    rcases Nat.eq_or_lt_of_le h1 with heq | hlt
    · subst heq
      rcases inference_loop_frame w n k (i + 1) (loop_body w n i st) i (by omega) with ⟨hb, hg⟩
      rw [hb, hg]
      constructor
      · simp only [loop_body]
        exact List.getElem?_set_self hlb
      · simp only [loop_body]
        exact List.getElem?_set_self hlg
    · exact ih (i + 1) (loop_body w n i st) j hlt (by omega)
        (by simp [loop_body]; omega) (by simp [loop_body]; omega)

theorem final_state_trace (w : World) :
    (final_state w).trace = loop_trace_seg w.num_images w.num_images 0 0 := by
  rw [final_state, inference_loop_trace]
  simp [init_state]

theorem final_state_boxes_length (w : World) :
    (final_state w).all_boxes.length = w.num_images := by
  rw [final_state, (inference_loop_length w w.num_images w.num_images 0 (init_state w)).1]
  simp [init_state, all_boxes_init]

theorem final_state_gts_length (w : World) :
    (final_state w).all_gt_boxes.length = w.num_images := by
  rw [final_state, (inference_loop_length w w.num_images w.num_images 0 (init_state w)).2]
  simp [init_state, all_gt_boxes_init]

theorem final_state_value (w : World) (i : Nat) (h : i < w.num_images) :
    (final_state w).all_boxes[i]? = some (w.get_bboxes i) ∧
    (final_state w).all_gt_boxes[i]? =
      some (GtEntry.arr (gt_boxes_assembled (w.metadata i))) := by
  rw [final_state]
  exact inference_loop_value w w.num_images w.num_images 0 (init_state w) i
    (Nat.zero_le i) (by omega)
    (by simp [init_state, all_boxes_init]; omega)
    (by simp [init_state, all_gt_boxes_init]; omega)

theorem check_asserts_none_of_valid (a : Args) (h : valid_args a) :
    check_asserts a = none := by
  rcases h with ⟨h1, h2, h3⟩
  simp [check_asserts, h1, h2, h3]

theorem run_script_of_valid (w : World) (a : Args) (py3 : Bool) (h : valid_args a) :
    run_script w a py3 = run_main w a py3 := by
  unfold run_script
  rw [check_asserts_none_of_valid a h]

theorem run_main_model_eq (w : World) (a : Args) (py3 : Bool) :
    (run_main w a py3).model =
      some (if a.normalize then
              w.scale_bbreg_weights w.loadedModel bb_means bb_stds w.num_classes
            else w.loadedModel) := by
  cases py3 <;> cases hn : a.normalize <;> simp [run_main, hn]

/-- The events before the loop: parse, backend, data loader, model build,
parameter load, then (only with `--normalize`) the weight-scaling call. -/
def head_trace (w : World) (a : Args) : List Event :=
  [Event.parseArgs, Event.buildBackend, Event.buildDataLoader,
   Event.buildModel, Event.loadParams] ++
  (if a.normalize then [Event.scaleBbreg bb_means bb_stds w.num_classes] else [])

theorem run_main_trace_py3 (w : World) (a : Args) :
    (run_main w a true).trace = head_trace w a := by
  cases hn : a.normalize <;> simp [run_main, head_trace, hn]

theorem run_main_trace_py2 (w : World) (a : Args) :
    (run_main w a false).trace =
      head_trace w a ++ (final_state w).trace ++
      [Event.logDisplay "Evaluating detections",
       Event.vocEval (final_state w).all_boxes (final_state w).all_gt_boxes true] := by
  cases hn : a.normalize <;> simp [run_main, head_trace, hn]

theorem run_main_fields_py2 (w : World) (a : Args) :
    (run_main w a false).outcome = Outcome.ok ∧
    (run_main w a false).all_boxes = (final_state w).all_boxes ∧
    (run_main w a false).all_gt_boxes = (final_state w).all_gt_boxes := by
  cases hn : a.normalize <;> simp [run_main, hn]

theorem loop_trace_seg_mem (n : Nat) :
    ∀ (k i L : Nat) (e : Event), e ∈ loop_trace_seg n k i L →
      (∃ s, e = Event.stdoutWrite s) ∨ e = Event.stdoutFlush ∨
      (∃ j, i ≤ j ∧ j < i + k ∧ (e = Event.forward j ∨ e = Event.decode j)) := by
  intro k
  induction k with
  | zero => intro i L e he; simp [loop_trace_seg] at he
  | succ k ih =>
    intro i L e he
    simp only [loop_trace_seg, List.cons_append, List.nil_append, List.mem_cons] at he
    rcases he with h | h | h | h | h | h
    · exact Or.inl ⟨_, h⟩
    · exact Or.inl ⟨_, h⟩
    · exact Or.inr (Or.inl h)
    · exact Or.inr (Or.inr ⟨i, Nat.le_refl i, by omega, Or.inl h⟩)
    · exact Or.inr (Or.inr ⟨i, Nat.le_refl i, by omega, Or.inr h⟩)
    · rcases ih (i + 1) (prt_str i n).length e h with h1 | h1 | ⟨j, hj1, hj2, hj3⟩
      · exact Or.inl h1
      · exact Or.inr (Or.inl h1)
      · exact Or.inr (Or.inr ⟨j, by omega, by omega, hj3⟩)

theorem loop_trace_seg_kinds (n : Nat) :
    ∀ (k i L : Nat),
      ((loop_trace_seg n k i L).map Event.kind).filter pipeline_kind = fwd_dec_seq k i := by
  intro k
  induction k with
  | zero => intro i L; simp [loop_trace_seg, fwd_dec_seq]
  | succ k ih =>
    intro i L
    simp only [loop_trace_seg, List.cons_append, List.nil_append, List.map_cons,
      List.filter_cons, fwd_dec_seq]
    rw [ih (i + 1) (prt_str i n).length]
    simp [Event.kind, pipeline_kind]

theorem loop_trace_seg_split (n : Nat) :
    ∀ (k i L j : Nat), j < k →
      ∃ (M : Nat) (pre post : List Event),
        loop_trace_seg n k i L =
          pre ++ [Event.stdoutWrite ("\r" ++ spaces M ++ "\r"),
                  Event.stdoutWrite (prt_str (i + j) n)] ++ post := by
  intro k
  induction k with
  | zero => intro i L j hj; omega
  | succ k ih =>
    intro i L j hj
    cases j with
    | zero =>
      refine ⟨L, [], [Event.stdoutFlush, Event.forward i, Event.decode i] ++
        loop_trace_seg n k (i + 1) (prt_str i n).length, ?_⟩
      simp [loop_trace_seg]
    | succ j =>
      rcases ih (i + 1) (prt_str i n).length j (by omega) with ⟨M, pre, post, hsplit⟩
      have hidx : i + 1 + j = i + (j + 1) := by omega
      rw [hidx] at hsplit
      refine ⟨M, [Event.stdoutWrite ("\r" ++ spaces L ++ "\r"),
        Event.stdoutWrite (prt_str i n), Event.stdoutFlush,
        Event.forward i, Event.decode i] ++ pre, post, ?_⟩
      rw [loop_trace_seg, hsplit]
      simp

theorem fileWrite_not_mem_seg (n k i L : Nat) (p c : String) :
    Event.fileWrite p c ∉ loop_trace_seg n k i L := by
  intro hmem
  rcases loop_trace_seg_mem n k i L _ hmem with ⟨s, hs⟩ | hf | ⟨j, _, _, hj | hj⟩ <;> simp_all

theorem scale_not_mem_seg (n k i L : Nat) (ms ss : List ℚ) (nc : Nat) :
    Event.scaleBbreg ms ss nc ∉ loop_trace_seg n k i L := by
  intro hmem
  rcases loop_trace_seg_mem n k i L _ hmem with ⟨s, hs⟩ | hf | ⟨j, _, _, hj | hj⟩ <;> simp_all

theorem fileWrite_not_mem_main (w : World) (a : Args) (py3 : Bool) (p c : String) :
    Event.fileWrite p c ∉ (run_main w a py3).trace := by
  cases py3
  · rw [run_main_trace_py2]
    intro hmem
    rcases List.mem_append.mp hmem with hm | hm
    · rcases List.mem_append.mp hm with hm2 | hm2
      · revert hm2
        cases hn : a.normalize <;> simp [head_trace, hn]
      · rw [final_state_trace] at hm2
        exact fileWrite_not_mem_seg w.num_images w.num_images 0 0 p c hm2
    · simp at hm
  · rw [run_main_trace_py3]
    cases hn : a.normalize <;> simp [head_trace, hn]

theorem fileWrite_not_mem_run (w : World) (a : Args) (py3 : Bool) (p c : String) :
    Event.fileWrite p c ∉ (run_script w a py3).trace := by
  unfold run_script
  cases hco : check_asserts a with
  | none => exact fileWrite_not_mem_main w a py3 p c
  | some msg => simp

/-- A concrete dataset/model oracle used by the witnesses: two classes, two
images, one ground-truth box per image, image scale 2. -/
def demo_world : World where
  num_classes := 2
  num_images := 2
  loadedModel := [3, 4]
  scale_bbreg_weights := fun m means stds n => m ++ means ++ stds ++ [(n : ℚ)]
  get_bboxes := fun i => [[[(i : ℚ), 0, 10, 10, 1]], []]
  metadata := fun i =>
    { im_shape := (600, 800)
      im_scale := 2
      gt_boxes := fun j => ⟨(j : ℚ) + (i : ℚ), 2, 3, 4⟩
      gt_classes := fun _ => 1
      difficult := fun _ => 0
      num_gt_boxes := 1 }

/-- A concrete valid command line. -/
def demo_args : Args where
  model_file := some "faster_rcnn.pkl"
  manifest := [("val", "val.csv")]
  batch_size := 1
  normalize := false
  output_dir := none
  data_dir := "/data"
  width := 1000
  height := 1000

/-- The same command line without the required `--model_file`. -/
def demo_args_bad : Args := { demo_args with model_file := none }

/-- The same command line with `--normalize`. -/
def demo_args_norm : Args := { demo_args with normalize := true }

/-- The same command line with an explicit `--output_dir`. -/
def demo_args_dir : Args := { demo_args with output_dir := some "/results" }

/-- C1: whenever the configuration is invalid (missing model file, manifest
without a `val` entry, or batch size other than 1), the script aborts with
an assertion failure before constructing the backend or loading any data:
the run's outcome is an `AssertionError` and its trace holds nothing but
the argument-parsing event — no retry, recovery, or partial-failure
handling occurs. -/
theorem c1_invalid_config_aborts (w : World) (a : Args) (py3 : Bool)
    (h : a.model_file = none ∨ manifest_has_val a = false ∨ a.batch_size ≠ 1) :
    (∃ msg, (run_script w a py3).outcome = Outcome.assertionError msg) ∧
    (run_script w a py3).trace = [Event.parseArgs] := by
  have hck : check_asserts a ≠ none := by
    unfold check_asserts
    by_cases h1 : a.model_file = none
    · simp [h1]
    · by_cases h2 : manifest_has_val a = false
      · simp [h1, h2]
      · have h3 : a.batch_size ≠ 1 := by tauto
        simp [h1, h2, h3]
  cases hco : check_asserts a with
  | none => exact absurd hco hck
  | some msg =>
    unfold run_script
    rw [hco]
    exact ⟨⟨msg, rfl⟩, rfl⟩

theorem c1_witness :
    (demo_args_bad.model_file = none ∨ manifest_has_val demo_args_bad = false ∨
      demo_args_bad.batch_size ≠ 1) ∧
    ((∃ msg, (run_script demo_world demo_args_bad false).outcome =
        Outcome.assertionError msg) ∧
      (run_script demo_world demo_args_bad false).trace = [Event.parseArgs]) :=
  ⟨Or.inl (by decide),
   c1_invalid_config_aborts demo_world demo_args_bad false (Or.inl (by decide))⟩

/-- C2: a valid run is a single linear pipeline in a fixed order — argument
parsing, backend construction, data-loader construction, model building,
parameter loading, then per image one forward pass followed by one box
decoding in index order, and finally exactly one `voc_eval` call after all
images have been processed. -/
theorem c2_pipeline_order (w : World) (a : Args) (h : valid_args a) :
    ((run_script w a false).trace.map Event.kind).filter pipeline_kind =
      [EKind.parseK, EKind.backendK, EKind.loaderK, EKind.buildK, EKind.loadK] ++
      fwd_dec_seq w.num_images 0 ++ [EKind.vevalK] := by
  rw [run_script_of_valid w a false h, run_main_trace_py2, final_state_trace]
  simp only [List.map_append, List.filter_append]
  rw [loop_trace_seg_kinds]
  cases hn : a.normalize <;>
    simp [head_trace, hn, Event.kind, pipeline_kind]

theorem c2_witness :
    valid_args demo_args ∧
    ((run_script demo_world demo_args false).trace.map Event.kind).filter pipeline_kind =
      [EKind.parseK, EKind.backendK, EKind.loaderK, EKind.buildK, EKind.loadK] ++
      fwd_dec_seq demo_world.num_images 0 ++ [EKind.vevalK] :=
  ⟨by decide, c2_pipeline_order demo_world demo_args (by decide)⟩

/-- C3: `all_boxes` is created with exactly one entry per image, each entry
a list of `num_classes` initially empty per-class lists (image-first
indexing); `all_gt_boxes` has exactly one entry per image; and both
accumulators are passed directly into `voc_eval` with their outer lengths
still equal to the number of images. -/
theorem c3_accumulator_shape (w : World) (a : Args) (h : valid_args a) :
    (all_boxes_init w.num_images w.num_classes).length = w.num_images ∧
    (∀ e ∈ all_boxes_init w.num_images w.num_classes,
        e.length = w.num_classes ∧ ∀ c ∈ e, c = ([] : ClsDets)) ∧
    (all_gt_boxes_init w.num_images).length = w.num_images ∧
    (∃ pre, (run_script w a false).trace =
        pre ++ [Event.logDisplay "Evaluating detections",
                Event.vocEval (run_script w a false).all_boxes
                  (run_script w a false).all_gt_boxes true]) ∧
    (run_script w a false).all_boxes.length = w.num_images ∧
    (run_script w a false).all_gt_boxes.length = w.num_images := by
  rcases run_main_fields_py2 w a with ⟨ho, hb, hg⟩
  refine ⟨?_, ?_, ?_, ?_, ?_, ?_⟩
  · simp [all_boxes_init]
  · intro e he
    have he2 := List.eq_of_mem_replicate he
    subst he2
    exact ⟨by simp, fun c hc => List.eq_of_mem_replicate hc⟩
  · simp [all_gt_boxes_init]
  · rw [run_script_of_valid w a false h, run_main_trace_py2, hb, hg]
    exact ⟨head_trace w a ++ (final_state w).trace, by simp⟩
  · rw [run_script_of_valid w a false h, hb]
    exact final_state_boxes_length w
  · rw [run_script_of_valid w a false h, hg]
    exact final_state_gts_length w

theorem c3_witness :
    valid_args demo_args ∧
    ((all_boxes_init demo_world.num_images demo_world.num_classes).length =
        demo_world.num_images ∧
      (∀ e ∈ all_boxes_init demo_world.num_images demo_world.num_classes,
          e.length = demo_world.num_classes ∧ ∀ c ∈ e, c = ([] : ClsDets)) ∧
      (all_gt_boxes_init demo_world.num_images).length = demo_world.num_images ∧
      (∃ pre, (run_script demo_world demo_args false).trace =
          pre ++ [Event.logDisplay "Evaluating detections",
                  Event.vocEval (run_script demo_world demo_args false).all_boxes
                    (run_script demo_world demo_args false).all_gt_boxes true]) ∧
      (run_script demo_world demo_args false).all_boxes.length = demo_world.num_images ∧
      (run_script demo_world demo_args false).all_gt_boxes.length = demo_world.num_images) :=
  ⟨by decide, c3_accumulator_shape demo_world demo_args (by decide)⟩

/-- C4: the bbox-regression weight scaling (`util.scale_bbreg_weights` with
means `[0,0,0,0]` and standard deviations `[0.1,0.1,0.2,0.2]`) is applied
if and only if `--normalize` was passed; without the flag the parameters
loaded from the model file are used unmodified, and no scaling call with
any other arguments ever occurs. -/
theorem c4_normalize_iff (w : World) (a : Args) (py3 : Bool) (h : valid_args a) :
    (run_script w a py3).model =
      some (if a.normalize then
              w.scale_bbreg_weights w.loadedModel bb_means bb_stds w.num_classes
            else w.loadedModel) ∧
    (a.normalize = false → (run_script w a py3).model = some w.loadedModel) ∧
    (Event.scaleBbreg bb_means bb_stds w.num_classes ∈ (run_script w a py3).trace ↔
      a.normalize = true) ∧
    (∀ ms ss nc, Event.scaleBbreg ms ss nc ∈ (run_script w a py3).trace →
      a.normalize = true ∧ ms = bb_means ∧ ss = bb_stds ∧ nc = w.num_classes) := by
  rw [run_script_of_valid w a py3 h]
  have hscale : ∀ ms ss nc, Event.scaleBbreg ms ss nc ∈ (run_main w a py3).trace →
      a.normalize = true ∧ ms = bb_means ∧ ss = bb_stds ∧ nc = w.num_classes := by
    intro ms ss nc hmem
    cases py3
    · rw [run_main_trace_py2, final_state_trace] at hmem
      rcases List.mem_append.mp hmem with hm | hm
      · rcases List.mem_append.mp hm with hm2 | hm2
        · revert hm2
          cases hn : a.normalize <;> simp [head_trace, hn]
        · exact absurd hm2 (scale_not_mem_seg w.num_images w.num_images 0 0 ms ss nc)
      · simp at hm
    · rw [run_main_trace_py3] at hmem
      revert hmem
      cases hn : a.normalize <;> simp [head_trace, hn]
  refine ⟨run_main_model_eq w a py3, ?_, ⟨fun hm => (hscale _ _ _ hm).1, ?_⟩, hscale⟩
  · intro hn
    rw [run_main_model_eq w a py3, hn]
    simp
  · intro hn
    cases py3
    · rw [run_main_trace_py2]
      simp [head_trace, hn]
    · rw [run_main_trace_py3]
      simp [head_trace, hn]

theorem c4_witness :
    valid_args demo_args_norm ∧
    ((run_script demo_world demo_args_norm false).model =
      some (if demo_args_norm.normalize then
              demo_world.scale_bbreg_weights demo_world.loadedModel bb_means bb_stds
                demo_world.num_classes
            else demo_world.loadedModel) ∧
    (demo_args_norm.normalize = false →
      (run_script demo_world demo_args_norm false).model = some demo_world.loadedModel) ∧
    (Event.scaleBbreg bb_means bb_stds demo_world.num_classes ∈
        (run_script demo_world demo_args_norm false).trace ↔
      demo_args_norm.normalize = true) ∧
    (∀ ms ss nc, Event.scaleBbreg ms ss nc ∈
        (run_script demo_world demo_args_norm false).trace →
      demo_args_norm.normalize = true ∧ ms = bb_means ∧ ss = bb_stds ∧
        nc = demo_world.num_classes)) :=
  ⟨by decide, c4_normalize_iff demo_world demo_args_norm false (by decide)⟩

/-- C5: for every processed image `i` the script writes the progress string
`Finished: i / num_images` to standard output immediately after writing the
erase string for the previous progress line; after the loop it emits the
`Evaluating detections` logging call immediately before the single
`voc_eval` invocation with `use_07_metric = True`; and the run writes no
file. -/
theorem c5_progress_output (w : World) (a : Args) (h : valid_args a) :
    (∀ i, i < w.num_images →
      ∃ (L : Nat) (pre post : List Event),
        (run_script w a false).trace =
          pre ++ [Event.stdoutWrite ("\r" ++ spaces L ++ "\r"),
                  Event.stdoutWrite (prt_str i w.num_images)] ++ post) ∧
    (∃ pre, (run_script w a false).trace =
        pre ++ [Event.logDisplay "Evaluating detections",
                Event.vocEval (run_script w a false).all_boxes
                  (run_script w a false).all_gt_boxes true]) ∧
    (∀ p c, Event.fileWrite p c ∉ (run_script w a false).trace) := by
  rcases run_main_fields_py2 w a with ⟨ho, hb, hg⟩
  refine ⟨?_, ?_, ?_⟩
  · intro i hi
    rcases loop_trace_seg_split w.num_images w.num_images 0 0 i hi with
      ⟨M, pre1, post1, hsplit⟩
    rw [Nat.zero_add] at hsplit
    refine ⟨M, head_trace w a ++ pre1,
      post1 ++ [Event.logDisplay "Evaluating detections",
        Event.vocEval (final_state w).all_boxes (final_state w).all_gt_boxes true], ?_⟩
    rw [run_script_of_valid w a false h, run_main_trace_py2, final_state_trace, hsplit]
    simp
  · rw [run_script_of_valid w a false h, run_main_trace_py2, hb, hg]
    exact ⟨head_trace w a ++ (final_state w).trace, by simp⟩
  · intro p c
    exact fileWrite_not_mem_run w a false p c

theorem c5_witness :
    valid_args demo_args ∧
    ((∀ i, i < demo_world.num_images →
      ∃ (L : Nat) (pre post : List Event),
        (run_script demo_world demo_args false).trace =
          pre ++ [Event.stdoutWrite ("\r" ++ spaces L ++ "\r"),
                  Event.stdoutWrite (prt_str i demo_world.num_images)] ++ post) ∧
    (∃ pre, (run_script demo_world demo_args false).trace =
        pre ++ [Event.logDisplay "Evaluating detections",
                Event.vocEval (run_script demo_world demo_args false).all_boxes
                  (run_script demo_world demo_args false).all_gt_boxes true]) ∧
    (∀ p c, Event.fileWrite p c ∉ (run_script demo_world demo_args false).trace)) :=
  ⟨by decide, c5_progress_output demo_world demo_args (by decide)⟩

/-- C6: when `--output_dir` is not supplied, the script sets `output_dir`
to `os.path.join(args.data_dir, 'frcn_output')`; when a value is supplied,
that value is kept unchanged. -/
theorem c6_output_dir_default (a : Args) :
    (a.output_dir = none →
      resolved_output_dir a = pyJoin a.data_dir "frcn_output") ∧
    (∀ d, a.output_dir = some d → resolved_output_dir a = d) := by
  constructor
  · intro h
    simp [resolved_output_dir, h]
  · intro d h
    simp [resolved_output_dir, h]

theorem c6_witness :
    (demo_args.output_dir = none ∧
      resolved_output_dir demo_args = pyJoin demo_args.data_dir "frcn_output") ∧
    (demo_args_dir.output_dir = some "/results" ∧
      resolved_output_dir demo_args_dir = "/results") :=
  ⟨⟨by decide, (c6_output_dir_default demo_args).1 (by decide)⟩,
   ⟨by decide, (c6_output_dir_default demo_args_dir).2 "/results" (by decide)⟩⟩

/-- C7: one loop iteration for image `mb_idx` writes its decoded boxes only
into `all_boxes[mb_idx]` and its ground-truth array only into
`all_gt_boxes[mb_idx]`, leaving every other index of both accumulators
unchanged; consequently after the whole loop every image index holds
exactly the value written by its own iteration. -/
theorem c7_loop_frame (w : World) :
    (∀ (n i : Nat) (st : LoopState) (j : Nat), j ≠ i →
      (loop_body w n i st).all_boxes[j]? = st.all_boxes[j]? ∧
      (loop_body w n i st).all_gt_boxes[j]? = st.all_gt_boxes[j]?) ∧
    (∀ (n i : Nat) (st : LoopState), i < st.all_boxes.length →
      (loop_body w n i st).all_boxes[i]? = some (w.get_bboxes i)) ∧
    (∀ (n i : Nat) (st : LoopState), i < st.all_gt_boxes.length →
      (loop_body w n i st).all_gt_boxes[i]? =
        some (GtEntry.arr (gt_boxes_assembled (w.metadata i)))) ∧
    (∀ (a : Args), valid_args a → ∀ i, i < w.num_images →
      (run_script w a false).all_boxes[i]? = some (w.get_bboxes i) ∧
      (run_script w a false).all_gt_boxes[i]? =
        some (GtEntry.arr (gt_boxes_assembled (w.metadata i)))) := by
  refine ⟨?_, ?_, ?_, ?_⟩
  · intro n i st j hj
    have hij : i ≠ j := fun he => hj he.symm
    exact ⟨by simp [loop_body, List.getElem?_set_ne hij],
           by simp [loop_body, List.getElem?_set_ne hij]⟩
  · intro n i st hi
    simp only [loop_body]
    exact List.getElem?_set_self hi
  · intro n i st hi
    simp only [loop_body]
    exact List.getElem?_set_self hi
  · intro a ha i hi
    rcases run_main_fields_py2 w a with ⟨ho, hb, hg⟩
    rw [run_script_of_valid w a false ha, hb, hg]
    exact final_state_value w i hi

theorem c7_witness :
    valid_args demo_args ∧ 0 < demo_world.num_images ∧
    ((run_script demo_world demo_args false).all_boxes[0]? =
        some (demo_world.get_bboxes 0) ∧
      (run_script demo_world demo_args false).all_gt_boxes[0]? =
        some (GtEntry.arr (gt_boxes_assembled (demo_world.metadata 0)))) :=
  ⟨by decide, by decide,
   (c7_loop_frame demo_world).2.2.2 demo_args (by decide) 0 (by decide)⟩

/-- C8: under Python 3 (`xrange` unbound) every run that passes argument
validation reaches the accumulator setup and then raises `NameError`
before processing any image: the outcome is `NameError` for `xrange`, the
trace shows the model was already built and loaded, and no forward pass or
box decoding ever occurs; forward passes can only occur under Python 2. -/
theorem c8_py3_name_error (w : World) (a : Args) (h : valid_args a) :
    (run_script w a true).outcome = Outcome.nameError "xrange" ∧
    Event.loadParams ∈ (run_script w a true).trace ∧
    (∀ i, Event.forward i ∉ (run_script w a true).trace) ∧
    (∀ i, Event.decode i ∉ (run_script w a true).trace) ∧
    (∀ (b : Bool), (∃ i, Event.forward i ∈ (run_script w a b).trace) → b = false) := by
  rw [run_script_of_valid w a true h]
  have hout : (run_main w a true).outcome = Outcome.nameError "xrange" := by
    cases hn : a.normalize <;> simp [run_main, hn]
  have hfwd : ∀ i, Event.forward i ∉ (run_main w a true).trace := by
    intro i
    rw [run_main_trace_py3]
    cases hn : a.normalize <;> simp [head_trace, hn]
  refine ⟨hout, ?_, hfwd, ?_, ?_⟩
  · rw [run_main_trace_py3]
    cases hn : a.normalize <;> simp [head_trace, hn]
  · intro i
    rw [run_main_trace_py3]
    cases hn : a.normalize <;> simp [head_trace, hn]
  · intro b hex
    cases b
    · rfl
    · rcases hex with ⟨i, hmem⟩
      rw [run_script_of_valid w a true h] at hmem
      exact absurd hmem (hfwd i)

theorem c8_witness :
    valid_args demo_args ∧
    ((run_script demo_world demo_args true).outcome = Outcome.nameError "xrange" ∧
    Event.loadParams ∈ (run_script demo_world demo_args true).trace ∧
    (∀ i, Event.forward i ∉ (run_script demo_world demo_args true).trace) ∧
    (∀ i, Event.decode i ∉ (run_script demo_world demo_args true).trace) ∧
    (∀ (b : Bool), (∃ i, Event.forward i ∈ (run_script demo_world demo_args b).trace) →
      b = false)) :=
  ⟨by decide, c8_py3_name_error demo_world demo_args (by decide)⟩

/-- C9: the resolved `output_dir` value is never read after it is assigned:
two runs differing only in `--output_dir` produce identical results (same
trace, outcome, model, and accumulators), and no run ever writes a file or
directory. -/
theorem c9_output_dir_unused (w : World) (a : Args) (py3 : Bool)
    (o1 o2 : Option String) :
    run_script w { a with output_dir := o1 } py3 =
      run_script w { a with output_dir := o2 } py3 ∧
    (∀ p c, Event.fileWrite p c ∉ (run_script w a py3).trace) := by
  constructor
  · cases a
    rfl
  · intro p c
    exact fileWrite_not_mem_run w a py3 p c

theorem c9_witness :
    run_script demo_world { demo_args with output_dir := some "/a" } false =
      run_script demo_world { demo_args with output_dir := some "/b" } false ∧
    Event.fileWrite "/a/ap.txt" "results" ∉
      (run_script demo_world demo_args false).trace :=
  ⟨(c9_output_dir_unused demo_world demo_args false (some "/a") (some "/b")).1,
   (c9_output_dir_unused demo_world demo_args false (some "/a") (some "/b")).2
     "/a/ap.txt" "results"⟩

/-- C10: for every processed image `i` the stored ground-truth array has
exactly `num_gt_boxes` rows of 7 columns each: the four box coordinates
divided by `im_scale`, then the class, the difficult flag, and the
`detected` column initialised to `False` (numeric 0). -/
theorem c10_gt_array_shape (w : World) (a : Args) (h : valid_args a) :
    ∀ i, i < w.num_images →
      ∃ rows,
        (run_script w a false).all_gt_boxes[i]? = some (GtEntry.arr rows) ∧
        rows.length = (w.metadata i).num_gt_boxes ∧
        (∀ r ∈ rows, r.length = 7) ∧
        (∀ j, j < (w.metadata i).num_gt_boxes →
          rows[j]? = some
            [((w.metadata i).gt_boxes j).x1 / (w.metadata i).im_scale,
             ((w.metadata i).gt_boxes j).y1 / (w.metadata i).im_scale,
             ((w.metadata i).gt_boxes j).x2 / (w.metadata i).im_scale,
             ((w.metadata i).gt_boxes j).y2 / (w.metadata i).im_scale,
             (w.metadata i).gt_classes j,
             (w.metadata i).difficult j, 0]) := by
  intro i hi
  rcases run_main_fields_py2 w a with ⟨ho, hb, hg⟩
  refine ⟨gt_boxes_assembled (w.metadata i), ?_, ?_, ?_, ?_⟩
  · rw [run_script_of_valid w a false h, hg]
    exact (final_state_value w i hi).2
  · simp [gt_boxes_assembled]
  · intro r hr
    rcases List.mem_map.mp hr with ⟨j, hj, hrj⟩
    rw [← hrj]
    simp [gt_row]
  · intro j hj
    simp [gt_boxes_assembled, List.getElem?_map, List.getElem?_range, hj, gt_row]

theorem c10_witness :
    valid_args demo_args ∧ 0 < demo_world.num_images ∧
    (∃ rows,
      (run_script demo_world demo_args false).all_gt_boxes[0]? =
        some (GtEntry.arr rows) ∧
      rows.length = (demo_world.metadata 0).num_gt_boxes ∧
      (∀ r ∈ rows, r.length = 7) ∧
      (∀ j, j < (demo_world.metadata 0).num_gt_boxes →
        rows[j]? = some
          [((demo_world.metadata 0).gt_boxes j).x1 / (demo_world.metadata 0).im_scale,
           ((demo_world.metadata 0).gt_boxes j).y1 / (demo_world.metadata 0).im_scale,
           ((demo_world.metadata 0).gt_boxes j).x2 / (demo_world.metadata 0).im_scale,
           ((demo_world.metadata 0).gt_boxes j).y2 / (demo_world.metadata 0).im_scale,
           (demo_world.metadata 0).gt_classes j,
           (demo_world.metadata 0).difficult j, 0])) :=
  ⟨by decide, by decide,
   c10_gt_array_shape demo_world demo_args (by decide) 0 (by decide)⟩

end FrcnInference
